import Mathlib

/-!
Shallow embedding of the solar-water-heating simulation core
(src/lib/panel.js, src/lib/tank.js, src/lib/simulations.js).

JavaScript numbers are modelled as exact rationals (ℚ).  The only
transcendental the code uses is `Math.cos((fraction - peakFraction) * Math.PI)`;
we abstract it as a parameter `rcos : ℚ → ℚ` where `rcos q` stands for
`Math.cos (q * Math.PI)` (so the physically true instance satisfies
`rcos 0 = 1`).  `parseFloat(x.toFixed(2))` is modelled by `round2`,
rounding to the nearest multiple of 1/100 (half up).
-/

namespace SolarHeating

/-- Rounding to two decimal places: models `parseFloat(x.toFixed(2))`. -/
def round2 (q : ℚ) : ℚ := (Int.floor (q * 100 + 1/2) : ℚ) / 100

/-- One `{x, y}` chart point pushed into a data array. -/
structure Point where
  x : ℚ
  y : ℚ
deriving DecidableEq, Repr, Inhabited

/-- One labeled output series (`{id, color, data, dashed?}`). -/
structure Series where
  id : String
  color : String
  data : List Point
  dashed : Bool := false
deriving DecidableEq, Repr, Inhabited

/-- The flat configuration mapping destructured by the drivers. -/
structure Params where
  tankVolume : ℚ
  initialTankTemp : ℚ
  tankSurfaceArea : ℚ
  tankInsulationUValue : ℚ
  ambientTemp : ℚ
  panelArea : ℚ
  panelEfficiencyRef : ℚ
  panelMaxTemp : ℚ
  panelUValue : ℚ
  panelRefTemp : ℚ
  panelTempCoefficient : ℚ
  irradianceStartHour : ℚ
  irradianceEndHour : ℚ
  irradiancePeakHour : ℚ
  solarIrradiancePeak : ℚ
deriving DecidableEq, Repr

/-- `calculatePanelEfficiency` (panel.js): linear degradation clamped by
`Math.max(0.1, Math.min(efficiency, efficiencyRef))`. -/
def calculatePanelEfficiency (panelTemp efficiencyRef panelRefTemp panelTempCoefficient : ℚ) : ℚ :=
  max 0.1 (min (efficiencyRef * (1 - panelTempCoefficient * (panelTemp - panelRefTemp))) efficiencyRef)

/-- `calculatePanelTemperature` (panel.js): ambient if `irradiance <= 0`,
otherwise a 10-iteration loop updating
`panelTemp = ambientTemp + solarCollected / (panelUValue * panelArea)`. -/
def calculatePanelTemperature (irradiance ambientTemp panelArea efficiencyRef panelUValue
    panelRefTemp panelTempCoefficient : ℚ) : ℚ :=
  if irradiance ≤ 0 then
    ambientTemp
  else
    (List.range 10).foldl
      (fun panelTemp _ =>
        let efficiency := calculatePanelEfficiency panelTemp efficiencyRef panelRefTemp panelTempCoefficient
        let solarCollected := irradiance * panelArea * efficiency
        ambientTemp + solarCollected / (panelUValue * panelArea))
      ambientTemp

/-- `calculatePanelOutput` (panel.js): collected solar power floored at zero;
the `tankTemp` argument is accepted but never read. -/
def calculatePanelOutput (solarIrradiance panelTemp tankTemp ambientTemp panelArea panelUValue
    efficiencyRef panelRefTemp panelTempCoefficient : ℚ) : ℚ :=
  let efficiency := calculatePanelEfficiency panelTemp efficiencyRef panelRefTemp panelTempCoefficient
  let solarCollected := solarIrradiance * panelArea * efficiency
  max 0 solarCollected

/-- `calculateTankHeatLoss` (tank.js): `max(0, uValue * surfaceArea * deltaT)`. -/
def calculateTankHeatLoss (tankTemp ambientTemp surfaceArea uValue : ℚ) : ℚ :=
  max 0 (uValue * surfaceArea * (tankTemp - ambientTemp))

/-- `calculateSolarIrradiance` (simulations.js): cosine profile inside the
daylight window, zero outside, floored at zero. -/
def calculateSolarIrradiance (rcos : ℚ → ℚ) (t : ℚ) (params : Params) : ℚ :=
  if params.irradianceStartHour ≤ t ∧ t ≤ params.irradianceEndHour then
    let fractionOfDay := (t - params.irradianceStartHour) /
      (params.irradianceEndHour - params.irradianceStartHour)
    let peakFraction := (params.irradiancePeakHour - params.irradianceStartHour) /
      (params.irradianceEndHour - params.irradianceStartHour)
    max 0 (params.solarIrradiancePeak * rcos (fractionOfDay - peakFraction))
  else 0

/-- The irradiance block inlined in the per-step loop of `simulateStorageTank`
(tank.js, lines 87-94), transcribed on its own. -/
def tankInlineIrradiance (rcos : ℚ → ℚ) (timeHours : ℚ) (p : Params) : ℚ :=
  if p.irradianceStartHour ≤ timeHours ∧ timeHours ≤ p.irradianceEndHour then
    let fractionOfDay := (timeHours - p.irradianceStartHour) /
      (p.irradianceEndHour - p.irradianceStartHour)
    let peakFraction := (p.irradiancePeakHour - p.irradianceStartHour) /
      (p.irradianceEndHour - p.irradianceStartHour)
    max 0 (p.solarIrradiancePeak * rcos (fractionOfDay - peakFraction))
  else 0

/-- The irradiance block inlined in the half-hour loop of `simulateSolarPanel`
(panel.js, lines 101-108), transcribed on its own. -/
def panelInlineIrradiance (rcos : ℚ → ℚ) (t : ℚ) (p : Params) : ℚ :=
  if p.irradianceStartHour ≤ t ∧ t ≤ p.irradianceEndHour then
    let fractionOfDay := (t - p.irradianceStartHour) /
      (p.irradianceEndHour - p.irradianceStartHour)
    let peakFraction := (p.irradiancePeakHour - p.irradianceStartHour) /
      (p.irradianceEndHour - p.irradianceStartHour)
    max 0 (p.solarIrradiancePeak * rcos (fractionOfDay - peakFraction))
  else 0

/-- `simulateSolarIrradiance` (simulations.js): half-hour sweep, `t = k / 2`
for `k = 0, …, 47` (the JS loop `for (t = 0; t < 24; t += 0.5)`). -/
def simulateSolarIrradiance (rcos : ℚ → ℚ) (parameters : Params) : List Series :=
  let irradianceData := (List.range 48).map fun (k : ℕ) =>
    let t : ℚ := (k : ℚ) / 2
    let irradiance := calculateSolarIrradiance rcos t parameters
    Point.mk (round2 t) (round2 irradiance)
  [{ id := "Solar Irradiance", color := "hsl(44, 100%, 50%)", data := irradianceData }]

/-- `simulateSolarPanel` (panel.js): half-hour sweep; the JS loop pushes into
four arrays in a single pass, rendered here as four maps over the same
sample index list. -/
def simulateSolarPanel (rcos : ℚ → ℚ) (p : Params) : List Series :=
  let panelTempData := (List.range 48).map fun (k : ℕ) =>
    let t : ℚ := (k : ℚ) / 2
    let irradiance := panelInlineIrradiance rcos t p
    let panelTemp := calculatePanelTemperature irradiance p.ambientTemp p.panelArea
      p.panelEfficiencyRef p.panelUValue p.panelRefTemp p.panelTempCoefficient
    Point.mk (round2 t) (round2 (min panelTemp p.panelMaxTemp))
  let ambientTempData := (List.range 48).map fun (k : ℕ) =>
    let t : ℚ := (k : ℚ) / 2
    Point.mk (round2 t) p.ambientTemp
  let panelEfficiencyData := (List.range 48).map fun (k : ℕ) =>
    let t : ℚ := (k : ℚ) / 2
    let irradiance := panelInlineIrradiance rcos t p
    let panelTemp := calculatePanelTemperature irradiance p.ambientTemp p.panelArea
      p.panelEfficiencyRef p.panelUValue p.panelRefTemp p.panelTempCoefficient
    let efficiency := calculatePanelEfficiency panelTemp p.panelEfficiencyRef
      p.panelRefTemp p.panelTempCoefficient
    Point.mk (round2 t) (round2 (efficiency * 100))
  let panelHeatOutputData := (List.range 48).map fun (k : ℕ) =>
    let t : ℚ := (k : ℚ) / 2
    let irradiance := panelInlineIrradiance rcos t p
    let panelTemp := calculatePanelTemperature irradiance p.ambientTemp p.panelArea
      p.panelEfficiencyRef p.panelUValue p.panelRefTemp p.panelTempCoefficient
    let heatOutput := calculatePanelOutput irradiance panelTemp p.ambientTemp p.ambientTemp
      p.panelArea p.panelUValue p.panelEfficiencyRef p.panelRefTemp p.panelTempCoefficient
    Point.mk (round2 t) (round2 heatOutput)
  [ { id := "Panel Temperature (°C)", color := "hsl(0, 100%, 50%)", data := panelTempData },
    { id := "Ambient Temperature (°C)", color := "hsl(0, 60%, 50%)", data := ambientTempData,
      dashed := true },
    { id := "Panel Efficiency (%)", color := "hsl(120, 100%, 50%)", data := panelEfficiencyData },
    { id := "Heat Output (W)", color := "hsl(210, 100%, 50%)", data := panelHeatOutputData } ]

/-- `numSteps = Math.floor(24 * 3600 / dt)` with `dt = 10`. -/
def numSteps : ℕ := 24 * 3600 / 10

/-- Mutable locals of the `simulateStorageTank` loop, plus the four data
arrays being pushed to. -/
structure TankAcc where
  currentTankTemp : ℚ
  lastQPanel : ℚ
  lastQTankLoss : ℚ
  tankTempData : List Point
  heatInData : List Point
  heatLossData : List Point
  ambientTempData : List Point
deriving DecidableEq, Repr

/-- State of `simulateStorageTank` just before the loop: the four arrays hold
their t=0 points and the tank is at `initialTankTemp`. -/
def tankInit (p : Params) : TankAcc :=
  { currentTankTemp := p.initialTankTemp
    lastQPanel := 0
    lastQTankLoss := 0
    tankTempData := [Point.mk 0 (round2 p.initialTankTemp)]
    heatInData := [Point.mk 0 0]
    heatLossData := [Point.mk 0 0]
    ambientTempData := [Point.mk 0 p.ambientTemp] }

/-- One iteration of the `simulateStorageTank` loop at step index `i`
(tank.js, lines 84-142). -/
def tankStep (rcos : ℚ → ℚ) (p : Params) (acc : TankAcc) (i : ℕ) : TankAcc :=
  let dt : ℚ := 10
  let currentTime : ℚ := (i : ℚ) * dt
  let timeHours : ℚ := currentTime / 3600
  let irradiance := tankInlineIrradiance rcos timeHours p
  let panelTemp :=
    if 0 < irradiance then
      p.ambientTemp + (irradiance * p.panelArea * p.panelEfficiencyRef) /
        (p.panelUValue * p.panelArea)
    else p.ambientTemp
  let qPanel := calculatePanelOutput irradiance panelTemp acc.currentTankTemp p.ambientTemp
    p.panelArea p.panelUValue p.panelEfficiencyRef p.panelRefTemp p.panelTempCoefficient
  let qTankLoss := calculateTankHeatLoss acc.currentTankTemp p.ambientTemp
    p.tankSurfaceArea p.tankInsulationUValue
  let qNet := (qPanel - qTankLoss) * dt
  let deltaT := qNet / (p.tankVolume * 4186)
  let newTemp := max p.ambientTemp (acc.currentTankTemp + deltaT)
  if i % (3600 / 10) = 0 then
    { currentTankTemp := newTemp
      lastQPanel := qPanel
      lastQTankLoss := qTankLoss
      tankTempData := acc.tankTempData ++ [Point.mk (round2 timeHours) (round2 newTemp)]
      heatInData := acc.heatInData ++ [Point.mk (round2 timeHours) (round2 qPanel)]
      heatLossData := acc.heatLossData ++ [Point.mk (round2 timeHours) (round2 qTankLoss)]
      ambientTempData := acc.ambientTempData ++ [Point.mk (round2 timeHours) p.ambientTemp] }
  else
    { currentTankTemp := newTemp
      lastQPanel := qPanel
      lastQTankLoss := qTankLoss
      tankTempData := acc.tankTempData
      heatInData := acc.heatInData
      heatLossData := acc.heatLossData
      ambientTempData := acc.ambientTempData }

/-- The whole loop `for (i = 1; i < numSteps; i++)`. -/
def tankRun (rcos : ℚ → ℚ) (p : Params) : TankAcc :=
  (List.range' 1 (numSteps - 1)).foldl (tankStep rcos p) (tankInit p)

/-- `simulateStorageTank` (tank.js): run the loop, return the four series. -/
def simulateStorageTank (rcos : ℚ → ℚ) (p : Params) : List Series :=
  let acc := tankRun rcos p
  [ { id := "Heat In (W)", color := "hsl(120, 100%, 50%)", data := acc.heatInData },
    { id := "Heat Loss (W)", color := "hsl(210, 100%, 50%)", data := acc.heatLossData },
    { id := "Tank Temperature (°C)", color := "hsl(0, 100%, 50%)", data := acc.tankTempData },
    { id := "Ambient Temperature (°C)", color := "hsl(0, 60%, 50%)", data := acc.ambientTempData,
      dashed := true } ]

/-! Concrete inputs used by witnesses and counterexamples. -/

/-- Stand-in for `Math.cos (q * Math.PI)` used at concrete inputs; every use
below evaluates it only at argument 0, where the true cosine also gives 1. -/
def demoRcos : ℚ → ℚ := fun _ => 1

/-- A representative valid configuration (defaults of the simulator UI). -/
def cfgA : Params :=
  { tankVolume := 200, initialTankTemp := 45, tankSurfaceArea := 2, tankInsulationUValue := 1,
    ambientTemp := 20, panelArea := 2, panelEfficiencyRef := 7/10, panelMaxTemp := 90,
    panelUValue := 5, panelRefTemp := 25, panelTempCoefficient := 1/250,
    irradianceStartHour := 6, irradianceEndHour := 18, irradiancePeakHour := 12,
    solarIrradiancePeak := 800 }

/-- Like `cfgA` but with the tank starting colder than ambient. -/
def cfgBelowAmbient : Params := { cfgA with initialTankTemp := 10 }

/-- Like `cfgA` but with a negative configured peak irradiance. -/
def cfgNegPeak : Params := { cfgA with solarIrradiancePeak := -800 }

/-! Helper lemmas. -/

/-- A `foldl` over `List.range n` whose body ignores the index is `n`-fold
iteration. -/
lemma range_foldl_const {α : Type} (f : α → α) (x : α) (n : ℕ) :
    (List.range n).foldl (fun a _ => f a) x = f^[n] x := by
  induction n with
  | zero => rfl
  | succ n ih =>
      rw [List.range_succ, List.foldl_append, ih, Function.iterate_succ_apply']
      rfl

/-- Modelled from the spec: the fixed-point map
`T ↦ ambientTemp + irradiance * panelArea * efficiency(T) / (panelUValue * panelArea)`
that §4.2 says `calculatePanelTemperature` iterates exactly 10 times. -/
def panelTempSpecMap (irradiance ambientTemp panelArea efficiencyRef panelUValue
    panelRefTemp panelTempCoefficient : ℚ) (T : ℚ) : ℚ :=
  ambientTemp + irradiance * panelArea *
    calculatePanelEfficiency T efficiencyRef panelRefTemp panelTempCoefficient /
      (panelUValue * panelArea)

/-- `round2` is monotone (rounding preserves order non-strictly). -/
lemma round2_mono {a b : ℚ} (h : a ≤ b) : round2 a ≤ round2 b := by
  unfold round2
  have hf : (⌊a * 100 + 1/2⌋ : ℤ) ≤ ⌊b * 100 + 1/2⌋ := Int.floor_le_floor (by linarith)
  have hc : ((⌊a * 100 + 1/2⌋ : ℤ) : ℚ) ≤ ((⌊b * 100 + 1/2⌋ : ℤ) : ℚ) := Int.cast_le.mpr hf
  linarith

/-- The first element of a list, when `head?` returns it, is a member. -/
lemma mem_of_head {α : Type} {l : List α} {a : α} (h : l.head? = some a) : a ∈ l := by
  cases l with
  | nil => simp at h
  | cons b t =>
      simp only [List.head?] at h
      injection h with h
      rw [h]
      exact List.mem_cons_self a t

/-- The x value(s) pushed into each data array at step `i`: one point when `i`
is a whole-hour step, none otherwise. -/
def sampleTag (i : ℕ) : List ℚ :=
  if i % (3600 / 10) = 0 then [round2 ((i : ℚ) * 10 / 3600)] else []

/-- x values pushed over a whole list of step indices. -/
def sampleXs (l : List ℕ) : List ℚ := l.foldr (fun i r => sampleTag i ++ r) []

lemma sampleXs_cons (i : ℕ) (l : List ℕ) : sampleXs (i :: l) = sampleTag i ++ sampleXs l := rfl

/-- After any step the tank temperature is the `max` with ambient. -/
lemma tankStep_temp (rcos : ℚ → ℚ) (p : Params) :
    ∀ (acc : TankAcc) (i : ℕ), p.ambientTemp ≤ (tankStep rcos p acc i).currentTankTemp := by
  intro acc i
  unfold tankStep
  dsimp only
  split <;> exact le_max_left _ _

/-- A step leaves the Tank Temperature array unchanged or appends exactly one
point whose y is the rounded post-step temperature. -/
lemma tankStep_tankTempData_cases (rcos : ℚ → ℚ) (p : Params) (acc : TankAcc) (i : ℕ) :
    (tankStep rcos p acc i).tankTempData = acc.tankTempData ∨
    (tankStep rcos p acc i).tankTempData =
      acc.tankTempData ++ [Point.mk (round2 ((i : ℚ) * 10 / 3600))
        (round2 ((tankStep rcos p acc i).currentTankTemp))] := by
  by_cases h : i % (3600 / 10) = 0
  · right; simp [tankStep, h]
  · left; simp [tankStep, h]

/-- Every point the loop leaves in the Tank Temperature array was already in
the starting array or records a clamped (hence `≥ round2 ambientTemp`) value. -/
lemma foldl_tankTempData_mem (rcos : ℚ → ℚ) (p : Params) (l : List ℕ) :
    ∀ acc : TankAcc, ∀ pt ∈ (l.foldl (tankStep rcos p) acc).tankTempData,
      pt ∈ acc.tankTempData ∨ round2 p.ambientTemp ≤ pt.y := by
  induction l with
  | nil => intro acc pt hpt; exact Or.inl hpt
  | cons i l' ih =>
      intro acc pt hpt
      rw [List.foldl_cons] at hpt
      rcases ih (tankStep rcos p acc i) pt hpt with h | h
      · rcases tankStep_tankTempData_cases rcos p acc i with hc | hc
        · rw [hc] at h; exact Or.inl h
        · rw [hc] at h
          rcases List.mem_append.mp h with h' | h'
          · exact Or.inl h'
          · right
            rcases List.mem_singleton.mp h' with rfl
            exact round2_mono (tankStep_temp rcos p acc i)
      · exact Or.inr h

/-- Each step only appends to the four data arrays. -/
lemma tankStep_data_suffix (rcos : ℚ → ℚ) (p : Params) (acc : TankAcc) (i : ℕ) :
    ∃ s₁ s₂ s₃ s₄ : List Point,
      (tankStep rcos p acc i).tankTempData = acc.tankTempData ++ s₁ ∧
      (tankStep rcos p acc i).heatInData = acc.heatInData ++ s₂ ∧
      (tankStep rcos p acc i).heatLossData = acc.heatLossData ++ s₃ ∧
      (tankStep rcos p acc i).ambientTempData = acc.ambientTempData ++ s₄ := by
  by_cases h : i % (3600 / 10) = 0
  · simp [tankStep, h]
  · exact ⟨[], [], [], [], by simp [tankStep, h], by simp [tankStep, h],
      by simp [tankStep, h], by simp [tankStep, h]⟩

/-- The loop only appends to the four data arrays. -/
lemma foldl_data_suffix (rcos : ℚ → ℚ) (p : Params) (l : List ℕ) :
    ∀ acc : TankAcc, ∃ r₁ r₂ r₃ r₄ : List Point,
      (l.foldl (tankStep rcos p) acc).tankTempData = acc.tankTempData ++ r₁ ∧
      (l.foldl (tankStep rcos p) acc).heatInData = acc.heatInData ++ r₂ ∧
      (l.foldl (tankStep rcos p) acc).heatLossData = acc.heatLossData ++ r₃ ∧
      (l.foldl (tankStep rcos p) acc).ambientTempData = acc.ambientTempData ++ r₄ := by
  induction l with
  | nil => intro acc; exact ⟨[], [], [], [], by simp, by simp, by simp, by simp⟩
  | cons i l' ih =>
      intro acc
      obtain ⟨r₁, r₂, r₃, r₄, h₁, h₂, h₃, h₄⟩ := ih (tankStep rcos p acc i)
      obtain ⟨s₁, s₂, s₃, s₄, g₁, g₂, g₃, g₄⟩ := tankStep_data_suffix rcos p acc i
      refine ⟨s₁ ++ r₁, s₂ ++ r₂, s₃ ++ r₃, s₄ ++ r₄, ?_, ?_, ?_, ?_⟩ <;>
        rw [List.foldl_cons]
      · rw [h₁, g₁, List.append_assoc]
      · rw [h₂, g₂, List.append_assoc]
      · rw [h₃, g₃, List.append_assoc]
      · rw [h₄, g₄, List.append_assoc]

/-- The x values a step appends are `sampleTag i`, identically in all four
arrays. -/
lemma tankStep_data_xs (rcos : ℚ → ℚ) (p : Params) (acc : TankAcc) (i : ℕ) :
    (tankStep rcos p acc i).tankTempData.map Point.x =
      acc.tankTempData.map Point.x ++ sampleTag i ∧
    (tankStep rcos p acc i).heatInData.map Point.x =
      acc.heatInData.map Point.x ++ sampleTag i ∧
    (tankStep rcos p acc i).heatLossData.map Point.x =
      acc.heatLossData.map Point.x ++ sampleTag i ∧
    (tankStep rcos p acc i).ambientTempData.map Point.x =
      acc.ambientTempData.map Point.x ++ sampleTag i := by
  by_cases h : i % (3600 / 10) = 0 <;> simp [tankStep, sampleTag, h]

/-- The x values the loop appends are `sampleXs l`, identically in all four
arrays. -/
lemma foldl_data_xs (rcos : ℚ → ℚ) (p : Params) (l : List ℕ) :
    ∀ acc : TankAcc,
      (l.foldl (tankStep rcos p) acc).tankTempData.map Point.x =
        acc.tankTempData.map Point.x ++ sampleXs l ∧
      (l.foldl (tankStep rcos p) acc).heatInData.map Point.x =
        acc.heatInData.map Point.x ++ sampleXs l ∧
      (l.foldl (tankStep rcos p) acc).heatLossData.map Point.x =
        acc.heatLossData.map Point.x ++ sampleXs l ∧
      (l.foldl (tankStep rcos p) acc).ambientTempData.map Point.x =
        acc.ambientTempData.map Point.x ++ sampleXs l := by
  induction l with
  | nil => intro acc; simp [sampleXs]
  | cons i l' ih =>
      intro acc
      obtain ⟨h₁, h₂, h₃, h₄⟩ := ih (tankStep rcos p acc i)
      obtain ⟨g₁, g₂, g₃, g₄⟩ := tankStep_data_xs rcos p acc i
      refine ⟨?_, ?_, ?_, ?_⟩ <;> rw [List.foldl_cons, sampleXs_cons]
      · rw [h₁, g₁, List.append_assoc]
      · rw [h₂, g₂, List.append_assoc]
      · rw [h₃, g₃, List.append_assoc]
      · rw [h₄, g₄, List.append_assoc]

/-- `sampleXs` as a filter-then-map. -/
lemma sampleXs_filter (l : List ℕ) :
    sampleXs l = (l.filter fun i => decide (i % (3600 / 10) = 0)).map
      (fun i => round2 ((i : ℚ) * 10 / 3600)) := by
  induction l with
  | nil => rfl
  | cons i l' ih =>
      rw [sampleXs_cons, ih]
      by_cases h : i % (3600 / 10) = 0 <;> simp [sampleTag, h, List.filter_cons]

/-- The hourly x values of the 24-hour tank run: 0, 1, …, 23. -/
def hourXs : List ℚ := (List.range 24).map fun n => (n : ℚ)

lemma hourXs_lit : hourXs = [0, 1, 2, 3, 4, 5, 6, 7, 8, 9, 10, 11, 12, 13, 14, 15, 16, 17,
    18, 19, 20, 21, 22, 23] := by decide

lemma hourXs_chain : List.Chain' (· < ·) hourXs := by
  rw [hourXs_lit]
  norm_num [List.chain'_cons]

lemma hourXs_cons : hourXs = 0 :: (List.range' 1 23).map (fun n => (n : ℚ)) := by decide

set_option maxRecDepth 20000 in
/-- Over the loop's actual index range, samples are taken exactly at steps
360, 720, …, 8280, i.e. hours 1 through 23. -/
lemma sampleXs_steps :
    sampleXs (List.range' 1 (numSteps - 1)) = (List.range' 1 23).map fun n => (n : ℚ) := by
  rw [sampleXs_filter]
  have hf : (List.range' 1 (numSteps - 1)).filter (fun i => decide (i % (3600 / 10) = 0)) =
      List.range' 360 23 360 := by decide
  rw [hf]
  norm_num [List.range', round2]

/-- The x values of all four series of a full run are exactly `hourXs`. -/
lemma tankRun_xs (rcos : ℚ → ℚ) (p : Params) :
    (tankRun rcos p).tankTempData.map Point.x = hourXs ∧
    (tankRun rcos p).heatInData.map Point.x = hourXs ∧
    (tankRun rcos p).heatLossData.map Point.x = hourXs ∧
    (tankRun rcos p).ambientTempData.map Point.x = hourXs := by
  obtain ⟨h₁, h₂, h₃, h₄⟩ :=
    foldl_data_xs rcos p (List.range' 1 (numSteps - 1)) (tankInit p)
  unfold tankRun
  rw [h₁, h₂, h₃, h₄]
  simp [tankInit, sampleXs_steps, hourXs_cons]

/-- The first point of each array of a full run is its t=0 point. -/
lemma tankRun_heads (rcos : ℚ → ℚ) (p : Params) :
    (tankRun rcos p).heatInData.head? = some (Point.mk 0 0) ∧
    (tankRun rcos p).heatLossData.head? = some (Point.mk 0 0) ∧
    (tankRun rcos p).tankTempData.head? = some (Point.mk 0 (round2 p.initialTankTemp)) ∧
    (tankRun rcos p).ambientTempData.head? = some (Point.mk 0 p.ambientTemp) := by
  obtain ⟨r₁, r₂, r₃, r₄, h₁, h₂, h₃, h₄⟩ :=
    foldl_data_suffix rcos p (List.range' 1 (numSteps - 1)) (tankInit p)
  unfold tankRun
  rw [h₁, h₂, h₃, h₄]
  simp [tankInit]

/-! Claim theorems. -/

/-- C1 (amended): after every internal 10-second step the updated tank
temperature is clamped to at least `ambientTemp`; every value recorded in the
Tank Temperature series is either the t=0 sample — which records the rounded
`initialTankTemp` unclamped, and so can lie below ambient — or is at least
`ambientTemp` rounded to two decimals. -/
theorem tank_temp_clamped_above_ambient (rcos : ℚ → ℚ) (p : Params) :
    (∀ (acc : TankAcc) (i : ℕ), p.ambientTemp ≤ (tankStep rcos p acc i).currentTankTemp) ∧
    (∀ pt ∈ (tankRun rcos p).tankTempData,
      pt = Point.mk 0 (round2 p.initialTankTemp) ∨ round2 p.ambientTemp ≤ pt.y) := by
  refine ⟨tankStep_temp rcos p, fun pt hpt => ?_⟩
  unfold tankRun at hpt
  rcases foldl_tankTempData_mem rcos p (List.range' 1 (numSteps - 1)) (tankInit p) pt hpt
    with h | h
  · exact Or.inl (List.mem_singleton.mp h)
  · exact Or.inr h

/-- C1 (witness for the amended theorem): applied at `cfgA`, step 1, and the
t=0 sample of the run. -/
theorem tank_temp_clamped_above_ambient_witness :
    cfgA.ambientTemp ≤ (tankStep demoRcos cfgA (tankInit cfgA) 1).currentTankTemp ∧
    (Point.mk 0 (round2 cfgA.initialTankTemp) = Point.mk 0 (round2 cfgA.initialTankTemp) ∨
      round2 cfgA.ambientTemp ≤ (Point.mk 0 (round2 cfgA.initialTankTemp)).y) :=
  ⟨(tank_temp_clamped_above_ambient demoRcos cfgA).1 (tankInit cfgA) 1,
   (tank_temp_clamped_above_ambient demoRcos cfgA).2 _
     (mem_of_head (tankRun_heads demoRcos cfgA).2.2.1)⟩

/-- C1 (counterexample): with `initialTankTemp = 10` below `ambientTemp = 20`,
the t=0 value recorded in the Tank Temperature series is 10, which is below
ambient — so not every recorded value is `≥ ambientTemp`. -/
theorem tank_initial_sample_below_ambient_cex :
    (simulateStorageTank demoRcos cfgBelowAmbient).map (fun s => s.data.head?) =
      [some (Point.mk 0 0), some (Point.mk 0 0), some (Point.mk 0 10), some (Point.mk 0 20)] ∧
    (10 : ℚ) < cfgBelowAmbient.ambientTemp := by
  obtain ⟨hh₁, hh₂, hh₃, hh₄⟩ := tankRun_heads demoRcos cfgBelowAmbient
  have h10 : round2 cfgBelowAmbient.initialTankTemp = 10 := by
    norm_num [cfgBelowAmbient, cfgA, round2]
  rw [h10] at hh₃
  have h20 : cfgBelowAmbient.ambientTemp = 20 := by norm_num [cfgBelowAmbient, cfgA]
  rw [h20] at hh₄
  refine ⟨?_, by rw [h20]; norm_num⟩
  simp [simulateStorageTank, hh₁, hh₂, hh₃, hh₄]

/-- C4 (amended): each run returns the four series in the fixed order with
their stable identifiers; each series holds the t=0 sample (configured
starting temperature, zero heat flow, ambient reference) followed by one
sample per completed hour for hours 1 through 23 — the hour-24 sample is never
emitted, since the loop stops at step 8639 — with strictly increasing x
values. -/
theorem tank_series_structure (rcos : ℚ → ℚ) (p : Params) :
    (simulateStorageTank rcos p).map Series.id =
      ["Heat In (W)", "Heat Loss (W)", "Tank Temperature (°C)", "Ambient Temperature (°C)"] ∧
    (simulateStorageTank rcos p).map (fun s => s.data.map Point.x) =
      List.replicate 4 hourXs ∧
    List.Chain' (· < ·) hourXs ∧
    (simulateStorageTank rcos p).map (fun s => s.data.head?) =
      [some (Point.mk 0 0), some (Point.mk 0 0), some (Point.mk 0 (round2 p.initialTankTemp)),
        some (Point.mk 0 p.ambientTemp)] := by
  obtain ⟨x₁, x₂, x₃, x₄⟩ := tankRun_xs rcos p
  obtain ⟨hh₁, hh₂, hh₃, hh₄⟩ := tankRun_heads rcos p
  refine ⟨rfl, ?_, hourXs_chain, ?_⟩
  · simp [simulateStorageTank, x₁, x₂, x₃, x₄, List.replicate]
  · simp [simulateStorageTank, hh₁, hh₂, hh₃, hh₄]

/-- C4 (counterexample): on a concrete run the x values of every series are
exactly 0, 1, …, 23 — only 24 points, and no sample exists at hour 24, so the
series do not contain one sample per hour across the full 24-hour horizon. -/
theorem tank_series_missing_hour24_cex :
    (simulateStorageTank demoRcos cfgA).map (fun s => s.data.map Point.x) =
      List.replicate 4 hourXs ∧
    hourXs.length = 24 ∧ ¬ (24 : ℚ) ∈ hourXs := by
  refine ⟨?_, by decide, by decide⟩
  obtain ⟨x₁, x₂, x₃, x₄⟩ := tankRun_xs demoRcos cfgA
  simp [simulateStorageTank, x₁, x₂, x₃, x₄, List.replicate]

/-- C2: `calculatePanelOutput` returns `max 0 (irradiance * area * efficiency(panelTemp))`;
the panel heat-loss term is not subtracted, and the result does not depend on
the `tankTemp` argument. -/
theorem panelOutput_returns_collected_only
    (solarIrradiance panelTemp tankTemp tankTemp' ambientTemp panelArea panelUValue
      efficiencyRef panelRefTemp panelTempCoefficient : ℚ) :
    calculatePanelOutput solarIrradiance panelTemp tankTemp ambientTemp panelArea panelUValue
        efficiencyRef panelRefTemp panelTempCoefficient =
      max 0 (solarIrradiance * panelArea *
        calculatePanelEfficiency panelTemp efficiencyRef panelRefTemp panelTempCoefficient) ∧
    calculatePanelOutput solarIrradiance panelTemp tankTemp ambientTemp panelArea panelUValue
        efficiencyRef panelRefTemp panelTempCoefficient =
      calculatePanelOutput solarIrradiance panelTemp tankTemp' ambientTemp panelArea panelUValue
        efficiencyRef panelRefTemp panelTempCoefficient :=
  ⟨rfl, rfl⟩

/-- C3: `calculatePanelTemperature` returns `ambientTemp` when `irradiance ≤ 0`,
and otherwise iterates the spec's fixed-point map exactly 10 times seeded at
`ambientTemp`, with no convergence check. -/
theorem panelTemperature_fixed_point_contract
    (irradiance ambientTemp panelArea efficiencyRef panelUValue
      panelRefTemp panelTempCoefficient : ℚ) :
    calculatePanelTemperature irradiance ambientTemp panelArea efficiencyRef panelUValue
        panelRefTemp panelTempCoefficient =
      if irradiance ≤ 0 then ambientTemp
      else (panelTempSpecMap irradiance ambientTemp panelArea efficiencyRef panelUValue
        panelRefTemp panelTempCoefficient)^[10] ambientTemp := by
  unfold calculatePanelTemperature
  split
  · rfl
  · exact range_foldl_const
      (panelTempSpecMap irradiance ambientTemp panelArea efficiencyRef panelUValue
        panelRefTemp panelTempCoefficient) ambientTemp 10

/-- C5 (counterexample): with `efficiencyRef = 1/20 < 0.1` the clamp returns
`0.1`, which exceeds `efficiencyRef`, so the result is not clamped into
`[0.1, efficiencyRef]` and is not `≤ efficiencyRef`. -/
theorem panelEfficiency_exceeds_ref_cex :
    calculatePanelEfficiency 25 (1/20) 25 (1/250) = 1/10 ∧
      ¬ calculatePanelEfficiency 25 (1/20) 25 (1/250) ≤ 1/20 := by
  constructor
  · norm_num [calculatePanelEfficiency]
  · norm_num [calculatePanelEfficiency]

/-- C5 (amended): `calculatePanelEfficiency` returns
`max 0.1 (min (efficiencyRef * (1 - tempCoeff * (panelTemp - refTemp))) efficiencyRef)`;
the result is always `≥ 0.1`, and it is `≤ efficiencyRef` whenever
`efficiencyRef ≥ 0.1`. -/
theorem panelEfficiency_clamp
    (panelTemp efficiencyRef panelRefTemp panelTempCoefficient : ℚ) :
    calculatePanelEfficiency panelTemp efficiencyRef panelRefTemp panelTempCoefficient =
      max 0.1 (min (efficiencyRef * (1 - panelTempCoefficient * (panelTemp - panelRefTemp)))
        efficiencyRef) ∧
    0.1 ≤ calculatePanelEfficiency panelTemp efficiencyRef panelRefTemp panelTempCoefficient ∧
    (0.1 ≤ efficiencyRef →
      calculatePanelEfficiency panelTemp efficiencyRef panelRefTemp panelTempCoefficient ≤
        efficiencyRef) := by
  refine ⟨rfl, le_max_left _ _, fun h => ?_⟩
  exact max_le h (min_le_right _ _)

/-- C5 (witness for the amended theorem, at the spec's scenario 2 input). -/
theorem panelEfficiency_clamp_witness :
    (0.1 : ℚ) ≤ 7/10 ∧ calculatePanelEfficiency 25 (7/10) 25 (1/250) ≤ 7/10 ∧
      0.1 ≤ calculatePanelEfficiency 25 (7/10) 25 (1/250) :=
  ⟨by norm_num,
   (panelEfficiency_clamp 25 (7/10) 25 (1/250)).2.2 (by norm_num),
   (panelEfficiency_clamp 25 (7/10) 25 (1/250)).2.1⟩

/-- C6: `calculateSolarIrradiance` is nonnegative everywhere and returns 0 for
times outside the closed daylight window. -/
theorem solarIrradiance_nonneg_zero_outside (rcos : ℚ → ℚ) (t : ℚ) (p : Params) :
    0 ≤ calculateSolarIrradiance rcos t p ∧
    ((t < p.irradianceStartHour ∨ p.irradianceEndHour < t) →
      calculateSolarIrradiance rcos t p = 0) := by
  constructor
  · unfold calculateSolarIrradiance
    split
    · exact le_max_left 0 _
    · exact le_refl 0
  · intro h
    unfold calculateSolarIrradiance
    split
    · rename_i hin
      rcases h with h | h
      · exact absurd hin.1 (not_le.mpr h)
      · exact absurd hin.2 (not_le.mpr h)
    · rfl

/-- C6 (witness): at `t = 30`, outside the window `[6, 18]` of `cfgA`. -/
theorem solarIrradiance_nonneg_zero_outside_witness :
    0 ≤ calculateSolarIrradiance demoRcos 30 cfgA ∧
      calculateSolarIrradiance demoRcos 30 cfgA = 0 :=
  ⟨(solarIrradiance_nonneg_zero_outside demoRcos 30 cfgA).1,
   (solarIrradiance_nonneg_zero_outside demoRcos 30 cfgA).2
     (Or.inr (by norm_num [cfgA]))⟩

/-- C7 (counterexample): with `solarIrradiancePeak = -800` (peak strictly inside
the window `[6, 18]`), irradiance at the peak hour is 0, not the configured
peak value, so the claim fails for this configuration. -/
theorem solarIrradiance_negative_peak_cex :
    cfgNegPeak.irradianceStartHour < cfgNegPeak.irradiancePeakHour ∧
    cfgNegPeak.irradiancePeakHour < cfgNegPeak.irradianceEndHour ∧
    calculateSolarIrradiance demoRcos cfgNegPeak.irradiancePeakHour cfgNegPeak = 0 ∧
    cfgNegPeak.solarIrradiancePeak = -800 ∧ (0 : ℚ) ≠ -800 := by
  refine ⟨by norm_num [cfgNegPeak, cfgA], by norm_num [cfgNegPeak, cfgA], ?_,
    by norm_num [cfgNegPeak, cfgA], by norm_num⟩
  norm_num [calculateSolarIrradiance, cfgNegPeak, cfgA, demoRcos]

/-- C7 (amended): for every configuration with `0 ≤ solarIrradiancePeak` whose
peak hour lies strictly inside the daylight window, and any cosine stand-in
with `rcos 0 = 1`, irradiance at the peak hour equals `solarIrradiancePeak`
exactly (the cosine argument is exactly zero there). -/
theorem solarIrradiance_peak_value (rcos : ℚ → ℚ) (p : Params)
    (h1 : rcos 0 = 1)
    (h2 : p.irradianceStartHour < p.irradiancePeakHour)
    (h3 : p.irradiancePeakHour < p.irradianceEndHour)
    (h4 : 0 ≤ p.solarIrradiancePeak) :
    calculateSolarIrradiance rcos p.irradiancePeakHour p = p.solarIrradiancePeak := by
  unfold calculateSolarIrradiance
  rw [if_pos ⟨le_of_lt h2, le_of_lt h3⟩]
  show max 0 (p.solarIrradiancePeak * rcos _) = _
  rw [sub_self, h1, mul_one, max_eq_right h4]

/-- C7 (witness, the spec's end-to-end scenario 1): window `[6, 18]`, peak 12,
peak value 800 gives irradiance 800 at `t = 12` and 0 at `t = 0` and `t = 24`. -/
theorem solarIrradiance_peak_value_witness :
    calculateSolarIrradiance demoRcos 12 cfgA = 800 ∧
    calculateSolarIrradiance demoRcos 0 cfgA = 0 ∧
    calculateSolarIrradiance demoRcos 24 cfgA = 0 := by
  refine ⟨?_, by norm_num [calculateSolarIrradiance, cfgA],
    by norm_num [calculateSolarIrradiance, cfgA]⟩
  have h := solarIrradiance_peak_value demoRcos cfgA rfl
    (by norm_num [cfgA]) (by norm_num [cfgA]) (by norm_num [cfgA])
  simpa [cfgA] using h

/-- C8: the three drivers are deterministic — identical configurations give
identical output series, with no state carried between invocations. -/
theorem drivers_deterministic (rcos : ℚ → ℚ) (p₁ p₂ : Params) (h : p₁ = p₂) :
    simulateSolarIrradiance rcos p₁ = simulateSolarIrradiance rcos p₂ ∧
    simulateSolarPanel rcos p₁ = simulateSolarPanel rcos p₂ ∧
    simulateStorageTank rcos p₁ = simulateStorageTank rcos p₂ := by
  subst h
  exact ⟨rfl, rfl, rfl⟩

/-- C8 (witness): two invocations on the literal configuration `cfgA`. -/
theorem drivers_deterministic_witness :
    simulateSolarIrradiance demoRcos cfgA = simulateSolarIrradiance demoRcos cfgA ∧
    simulateSolarPanel demoRcos cfgA = simulateSolarPanel demoRcos cfgA ∧
    simulateStorageTank demoRcos cfgA = simulateStorageTank demoRcos cfgA :=
  drivers_deterministic demoRcos cfgA cfgA rfl

/-- C9: the irradiance blocks inlined in the loops of `simulateStorageTank`
and `simulateSolarPanel` agree with the standalone `calculateSolarIrradiance`
at every time and configuration. -/
theorem inline_irradiance_equiv (rcos : ℚ → ℚ) (t : ℚ) (p : Params) :
    tankInlineIrradiance rcos t p = calculateSolarIrradiance rcos t p ∧
    panelInlineIrradiance rcos t p = calculateSolarIrradiance rcos t p :=
  ⟨rfl, rfl⟩

/-- C10: in the `simulateSolarPanel` output, the k-th Panel Temperature sample
reports `min(panelTemp, panelMaxTemp)`, while the Panel Efficiency and Heat
Output samples at the same instant are computed from the uncapped equilibrium
temperature `panelTemp` itself. -/
theorem panel_series_cap_vs_uncapped (rcos : ℚ → ℚ) (p : Params) (k : ℕ) (hk : k < 48) :
    ((simulateSolarPanel rcos p).map fun s => s.data[k]?) =
      (let t : ℚ := (k : ℚ) / 2
       let irradiance := panelInlineIrradiance rcos t p
       let panelTemp := calculatePanelTemperature irradiance p.ambientTemp p.panelArea
         p.panelEfficiencyRef p.panelUValue p.panelRefTemp p.panelTempCoefficient
       let efficiency := calculatePanelEfficiency panelTemp p.panelEfficiencyRef
         p.panelRefTemp p.panelTempCoefficient
       let heatOutput := calculatePanelOutput irradiance panelTemp p.ambientTemp p.ambientTemp
         p.panelArea p.panelUValue p.panelEfficiencyRef p.panelRefTemp p.panelTempCoefficient
       [ some (Point.mk (round2 t) (round2 (min panelTemp p.panelMaxTemp))),
         some (Point.mk (round2 t) p.ambientTemp),
         some (Point.mk (round2 t) (round2 (efficiency * 100))),
         some (Point.mk (round2 t) (round2 heatOutput)) ]) := by
  simp only [simulateSolarPanel, List.map_cons, List.map_nil, List.getElem?_map,
    List.getElem?_range, hk, Option.map_some']

/-- C10 (witness): the sample index 24, i.e. t = 12, of a `cfgA` run. -/
theorem panel_series_cap_vs_uncapped_witness :
    ((simulateSolarPanel demoRcos cfgA).map fun s => s.data[24]?) =
      (let t : ℚ := ((24 : ℕ) : ℚ) / 2
       let irradiance := panelInlineIrradiance demoRcos t cfgA
       let panelTemp := calculatePanelTemperature irradiance cfgA.ambientTemp cfgA.panelArea
         cfgA.panelEfficiencyRef cfgA.panelUValue cfgA.panelRefTemp cfgA.panelTempCoefficient
       let efficiency := calculatePanelEfficiency panelTemp cfgA.panelEfficiencyRef
         cfgA.panelRefTemp cfgA.panelTempCoefficient
       let heatOutput := calculatePanelOutput irradiance panelTemp cfgA.ambientTemp
         cfgA.ambientTemp cfgA.panelArea cfgA.panelUValue cfgA.panelEfficiencyRef
         cfgA.panelRefTemp cfgA.panelTempCoefficient
       [ some (Point.mk (round2 t) (round2 (min panelTemp cfgA.panelMaxTemp))),
         some (Point.mk (round2 t) cfgA.ambientTemp),
         some (Point.mk (round2 t) (round2 (efficiency * 100))),
         some (Point.mk (round2 t) (round2 heatOutput)) ]) :=
  panel_series_cap_vs_uncapped demoRcos cfgA 24 (by norm_num)

end SolarHeating
